import Mathlib

/-!
Account controller of baseapp (app/controllers/account.go).

A shallow embedding of the account controller: registration, login, logout,
account recovery, e-mail confirmation, password reset by token, and the
verification-token helpers.  The request context (session, flash, render
arguments, transaction handle) is passed explicitly; a Go panic is an explicit
outcome that carries the context at the point of the panic.
-/

namespace Controllers

/-! ## Data model (package models) -/

/-- Modelled from the spec: the record type models.User, which is declared outside
account.go.  The fields are the ones account.go reads and writes; Password is
transient (never stored), HashedPassword is the bcrypt output as bytes. -/
structure User where
  UserId : Nat
  Email : String
  Password : String
  HashedPassword : List Nat
  Created : Nat
  Confirmed : Bool
  deriving DecidableEq, Repr

/-- Modelled from the spec: the record type models.Profile, declared outside
account.go, with the seven fields of the literal built in SaveUser.  User is a
pointer that is nil in a stored row and bound when a row is loaded. -/
structure Profile where
  ProfileId : Nat
  UserId : Nat
  Name : String
  Summary : String
  Description : String
  PhotoUrl : String
  User : Option User
  deriving DecidableEq, Repr

/-- Modelled from the spec: the record type models.Token, declared outside
account.go, with the four fields of the literal built in storeVerifyHashRecord (the column
Type is written Type_ here). -/
structure Token where
  TokenId : Nat
  Email : String
  Type_ : String
  Hash : String
  deriving DecidableEq, Repr

/-- The three tables behind the transaction handle c.Txn. -/
structure Db where
  users : List User
  profiles : List Profile
  tokens : List Token
  deriving DecidableEq, Repr

/-- An outgoing mail handed to the mailer. -/
structure Message where
  To : List String
  Subject : String
  Template : String
  Link : String
  deriving DecidableEq, Repr

/-! ## String-keyed maps (revel Session and Flash.Out) -/

/-- A Go map from string to string, as an association list. -/
abbrev StrMap := List (String × String)

/-- The lookup m[k] with the comma-ok result. -/
def mapGet (m : StrMap) (k : String) : Option String :=
  (m.find? (fun e => decide (e.1 = k))).map Prod.snd

/-- The builtin delete(m, k). -/
def mapDelete (m : StrMap) (k : String) : StrMap :=
  m.filter (fun e => decide (e.1 ≠ k))

/-- The assignment m[k] = v. -/
def mapSet (m : StrMap) (k v : String) : StrMap :=
  (k, v) :: mapDelete m k

/-- The keys a range loop over the map visits. -/
def mapKeys (m : StrMap) : List String :=
  m.map Prod.fst

/-- Session key under which revel keeps the expiration marker. -/
def TIMESTAMP_KEY : String := "_TS"

/-- Session.SetNoExpiration of revel: the session ends with the browser session. -/
def SetNoExpiration (s : StrMap) : StrMap :=
  mapSet s TIMESTAMP_KEY "session"

/-- Session.SetDefaultExpiration of revel: the session lives for the default duration. -/
def SetDefaultExpiration (s : StrMap) : StrMap :=
  mapDelete s TIMESTAMP_KEY

/-! ## Routes, results, request context -/

/-- Reverse routes used as redirect targets. -/
inductive Route where
  | AccountLogin
  | AccountLogout
  | AccountRegister
  | AccountRecover
  | ApplicationIndex
  | ProfileShow (id : Nat)
  | ProfilePassword (id : Nat)
  deriving DecidableEq, Repr

/-- The r.Result a handler returns. -/
inductive Result where
  | Redirect (target : Route)
  | Render (arg : Option Profile)
  deriving DecidableEq, Repr

/-- The request context of the controller: session, outgoing flash, the cached
RenderArgs entry "user", request parameters, the Validation.Keep flag, the
transaction handle and the mails handed to the mailer. -/
structure Controller where
  Session : StrMap
  Flash : StrMap
  RenderArgs : Option Profile
  Params : StrMap
  ValidationKept : Bool
  Txn : Db
  Mailed : List Message
  deriving DecidableEq, Repr

/-- Calls into collaborators that can return an error. -/
inductive Call where
  | selectUser
  | selectProfile
  | getUser
  | selectToken
  | insertUser
  | insertProfile
  | insertToken
  | updateUser
  | deleteToken
  | renderTemplate
  | sendMessage
  deriving DecidableEq, Repr

/-- Everything outside the controller that a request depends on: which
collaborator calls fail, bcrypt, the validators of package models, the clock,
gravatar, the bytes delivered by crypto/rand, and the configuration. -/
structure Env where
  fails : Call → Bool
  bcryptGenerate : String → List Nat
  bcryptCompare : List Nat → String → Bool
  ValidateUserEmail : String → Bool
  ValidateUserPassword : String → Bool
  ValidateProfileName : String → Bool
  now : Nat
  GetAvatarURL : String → Option String
  rand : List Nat
  mailerServer : String
  callbackHost : String
  httpAddr : String

/-- Outcome of a step: a normal return with a value, or a panic, each with the
request context at that point. -/
inductive Step (α : Type) where
  | ok (val : α) (c : Controller)
  | panic (err : String) (c : Controller)

/-- Outcome of a handler. -/
abbrev Outcome := Step Result

/-- What the caller of a handler can observe: the result, the outgoing flash
and the session; nothing when the handler panicked. -/
def response : Outcome → Option (Result × StrMap × StrMap)
  | .ok r c => some (r, c.Flash, c.Session)
  | .panic _ _ => none

/-- Flash.Error(msg). -/
def FlashError (c : Controller) (msg : String) : Controller :=
  { c with Flash := mapSet c.Flash "error" msg }

/-- Flash.Success(msg). -/
def FlashSuccess (c : Controller) (msg : String) : Controller :=
  { c with Flash := mapSet c.Flash "success" msg }

/-- Controller.FlashParams: every request parameter is copied into the flash. -/
def FlashParams (c : Controller) : Controller :=
  { c with Flash := c.Params.foldl (fun f e => mapSet f e.1 e.2) c.Flash }

/-! ## Verification hash -/

/-- The constant alphanum. -/
def alphanum : String := "ABCDEFGHIJKLMNOPQRSTUVWXYZ0123456789abcdefghijklmnopqrstuvwxyz"

/-- The byte alphanum[i]; none when the index is out of range (a Go panic). -/
def alphanumAt (i : Nat) : Option Nat :=
  (alphanum.toList.get? i).map Char.toNat

/-- The call rand.Read(buf): the buffer is overwritten with the bytes the source
delivers; positions the source does not reach keep their value. -/
def randRead : List Nat → List Nat → List Nat
  | _, [] => []
  | [], b :: bs => b :: bs
  | s :: ss, _ :: bs => (s % 256) :: randRead ss bs

/-- The range loop of generateVerifyHash: every byte b of the buffer is replaced
by alphanum[b % byte(len(alphanum))]. -/
def rangeLoop : List Nat → Option (List Nat)
  | [] => some []
  | b :: bs =>
    match alphanumAt (b % (alphanum.length % 256)), rangeLoop bs with
    | some x, some xs => some (x :: xs)
    | _, _ => none

/-- The function generateVerifyHash(n), given the bytes crypto/rand delivers. -/
def generateVerifyHash (src : List Nat) (n : Nat) : Option (List Nat) :=
  rangeLoop (randRead src (List.replicate n 0))

/-- The secret generateVerifyHash(16) returns when crypto/rand delivers the
sixteen bytes v. -/
def secretOf (v : Fin 16 → Fin 256) : Option (List Nat) :=
  generateVerifyHash (List.ofFn (fun i => (v i).val)) 16

/-- The distinct secrets generateVerifyHash(16) returns over all 256^16 inputs. -/
def secrets : Finset (Option (List Nat)) :=
  Finset.univ.image secretOf

/-- The number of byte values b that the loop maps to the character alphanum[k]. -/
def preimageCount (k : Nat) : Nat :=
  ((List.range 256).filter (fun b => decide (b % (alphanum.length % 256) = k))).length

/-- The conversion string(hash) of a byte slice of ASCII bytes. -/
def bytesToString (bs : List Nat) : String :=
  String.mk (bs.map Char.ofNat)

/-! ## The transaction handle (gorp) -/

/-- The call Txn.SelectOne on a table: an error when the call fails, when no row
matches, and when several rows match; otherwise the one matching row. -/
def SelectOne {α : Type} (failed : Bool) (rows : List α) (p : α → Bool) : Except String α :=
  if failed then .error "txn: select failed"
  else
    match rows.filter p with
    | [] => .error "sql: no rows in result set"
    | [r] => .ok r
    | _ :: _ :: _ => .error "gorp: multiple rows returned"

/-- The key an auto-increment column gives to the next inserted row. -/
def nextKey (keys : List Nat) : Nat :=
  keys.foldl max 0 + 1

/-- The query: select * from User where Email = ?. -/
def selectUserByEmail (env : Env) (db : Db) (email : String) : Except String User :=
  SelectOne (env.fails .selectUser) db.users (fun u => decide (u.Email = email))

/-- The lookup of a User row by its primary key UserId; the key identifies one
row, and a table in which it does not is reported as an error. -/
def getUserByKey (env : Env) (db : Db) (id : Nat) : Except String User :=
  SelectOne (env.fails .getUser) db.users (fun u => decide (u.UserId = id))

/-- Modelled from the spec: the load hook of models.Profile, declared outside
account.go.  A Profile belongs to one Account (spec section 3); a loaded profile
has its User pointer bound to the User row with the key Profile.UserId, which
account.go relies on when it reads profile.User after getProfile. -/
def ProfilePostGet (env : Env) (db : Db) (p : Profile) : Except String Profile :=
  match getUserByKey env db p.UserId with
  | .error e => .error e
  | .ok u => .ok { p with User := some u }

/-- The query: select * from Profile where UserId = ?, with the load hook. -/
def selectProfileByUserId (env : Env) (db : Db) (id : Nat) : Except String Profile :=
  match SelectOne (env.fails .selectProfile) db.profiles (fun p => decide (p.UserId = id)) with
  | .error e => .error e
  | .ok p => ProfilePostGet env db p

/-- The query: select * from Token where Type = ? and Hash = ?. -/
def selectToken (env : Env) (db : Db) (hashType hashToken : String) : Except String Token :=
  SelectOne (env.fails .selectToken) db.tokens
    (fun t => decide (t.Type_ = hashType) && decide (t.Hash = hashToken))

/-- The call Txn.Insert(&user): the row gets a fresh UserId, which is written back
into the struct; the transient Password is not stored. -/
def insertUser (env : Env) (db : Db) (u : User) : Except String (User × Db) :=
  if env.fails .insertUser then .error "txn: insert into User failed"
  else
    let u1 := { u with UserId := nextKey (db.users.map (fun r => r.UserId)) }
    .ok (u1, { db with users := db.users ++ [{ u1 with Password := "" }] })

/-- The call Txn.Insert(profile): the row gets a fresh ProfileId; the transient
User pointer is not stored. -/
def insertProfile (env : Env) (db : Db) (p : Profile) : Except String (Profile × Db) :=
  if env.fails .insertProfile then .error "txn: insert into Profile failed"
  else
    let p1 := { p with ProfileId := nextKey (db.profiles.map (fun r => r.ProfileId)) }
    .ok (p1, { db with profiles := db.profiles ++ [{ p1 with User := none }] })

/-- The call Txn.Insert(&token). -/
def insertToken (env : Env) (db : Db) (t : Token) : Except String (Token × Db) :=
  if env.fails .insertToken then .error "txn: insert into Token failed"
  else
    let t1 := { t with TokenId := nextKey (db.tokens.map (fun r => r.TokenId)) }
    .ok (t1, { db with tokens := db.tokens ++ [t1] })

/-- The call Txn.Update(user): every row with the key of the struct takes the
stored columns of the struct. -/
def updateUser (env : Env) (db : Db) (u : User) : Except String Db :=
  if env.fails .updateUser then .error "txn: update User failed"
  else
    let rows := db.users.map
      (fun r => if r.UserId = u.UserId then { u with Password := "" } else r)
    .ok { db with users := rows }

/-- The call Txn.Delete(token): the rows with the key of the struct are removed. -/
def deleteToken (env : Env) (db : Db) (t : Token) : Except String Db :=
  if env.fails .deleteToken then .error "txn: delete from Token failed"
  else
    .ok { db with tokens := db.tokens.filter (fun r => decide (r.TokenId ≠ t.TokenId)) }

/-! ## Token records -/

/-- The function storeVerifyHashRecord: the error of the insert is returned. -/
def storeVerifyHashRecord (env : Env) (c : Controller) (email tokenType : String)
    (hash : List Nat) : Option String × Controller :=
  match insertToken env c.Txn (Token.mk 0 email tokenType (bytesToString hash)) with
  | .error e => (some e, c)
  | .ok (_, db) => (none, { c with Txn := db })

/-- The function getVerifyHashRecord: nil when the select returns an error. -/
def getVerifyHashRecord (env : Env) (c : Controller) (hashType hashToken : String) :
    Option Token :=
  match selectToken env c.Txn hashType hashToken with
  | .error _ => none
  | .ok token => some token

/-- The function deleteVerifyHashRecord: panics when the delete returns an error. -/
def deleteVerifyHashRecord (env : Env) (c : Controller) (token : Token) : Step Unit :=
  match deleteToken env c.Txn token with
  | .error e => .panic e c
  | .ok db => .ok () { c with Txn := db }

/-! ## Profiles and sessions -/

/-- The function getProfile: nil when either select returns an error. -/
def getProfile (env : Env) (c : Controller) (email : String) : Option Profile :=
  match selectUserByEmail env c.Txn email with
  | .error _ => none
  | .ok user =>
    match selectProfileByUserId env c.Txn user.UserId with
    | .error _ => none
    | .ok profile => some profile

/-- The function connected. -/
def connected (env : Env) (c : Controller) : Option Profile :=
  match c.RenderArgs with
  | some profile => some profile
  | none =>
    match mapGet c.Session "userEmail" with
    | some email => getProfile env c email
    | none => none

/-- The function AddUser. -/
def AddUser (env : Env) (c : Controller) : Controller :=
  match connected env c with
  | some profile => { c with RenderArgs := some profile }
  | none => c

/-- The function DoLogin. -/
def DoLogin (c : Controller) (user : User) (remember : Bool) : Controller :=
  let s := mapSet c.Session "userEmail" user.Email
  { c with Session := if remember then SetDefaultExpiration s else SetNoExpiration s }

/-- The handler Logout. -/
def Logout (c : Controller) : Outcome :=
  let s := (mapKeys c.Session).foldl mapDelete c.Session
  .ok (.Redirect .AccountLogin)
    (FlashSuccess { c with Session := s } "You have been successfully logged out")

/-! ## Mail -/

/-- The function sendEmail. -/
def sendEmail (env : Env) (c : Controller) (userPtr : Option User)
    (verifyType subject : String) : Step (Option String) :=
  if env.mailerServer = "smtp.example.org" then .ok none c
  else
    match generateVerifyHash env.rand 16, userPtr with
    | none, _ => .panic "runtime error: index out of range" c
    | some _, none => .panic "runtime error: nil pointer dereference" c
    | some verifyEmailToken, some user =>
      let c1 := (storeVerifyHashRecord env c user.Email verifyType verifyEmailToken).2
      let message : Message :=
        { To := [user.Email], Subject := subject, Template := "email/" ++ verifyType,
          Link := env.callbackHost ++ "/account/" ++ verifyType ++ "/"
                    ++ bytesToString verifyEmailToken }
      if env.fails .renderTemplate then .ok (some "mail: template rendering failed") c1
      else if env.fails .sendMessage then .ok (some "mail: sending failed") c1
      else .ok none { c1 with Mailed := c1.Mailed ++ [message] }

/-- The function sendAccountRecoverEmail. -/
def sendAccountRecoverEmail (env : Env) (c : Controller) (user : Option User) :
    Step (Option String) :=
  sendEmail env c user "reset" ("Reset your password at " ++ env.httpAddr)

/-- The function sendAccountConfirmEmail. -/
def sendAccountConfirmEmail (env : Env) (c : Controller) (user : Option User) :
    Step (Option String) :=
  sendEmail env c user "confirm" ("Welcome to " ++ env.httpAddr)

/-! ## Handlers -/

/-- The function hasEmailCapability. -/
def hasEmailCapability (env : Env) : Bool :=
  decide (env.mailerServer ≠ "smtp.example.org")

/-- The validation block of SaveUser: true when Validation.HasErrors() is false. -/
def SaveUserValid (env : Env) (user : User) (name verifyPassword : String) : Bool :=
  env.ValidateUserEmail user.Email
    && env.ValidateUserPassword user.Password
    && decide (user.Password ≠ user.Email)
    && decide (verifyPassword ≠ "")
    && decide (verifyPassword = user.Password)
    && env.ValidateProfileName name

/-- The profile SaveUser builds for the inserted user: the literal with the
assigned UserId, and the gravatar icon as PhotoUrl when there is one. -/
def newProfile (env : Env) (user1 : User) (name : String) : Profile :=
  let profile : Profile := Profile.mk 0 user1.UserId name "" "" "" (some user1)
  match env.GetAvatarURL user1.Email with
  | some url => { profile with PhotoUrl := url }
  | none => profile

/-- The handler SaveUser. -/
def SaveUser (env : Env) (c : Controller) (user : User) (name verifyPassword : String) :
    Outcome :=
  if SaveUserValid env user name verifyPassword = false then
    .ok (.Redirect .AccountRegister)
      (FlashError (FlashParams { c with ValidationKept := true }) "Registration failed.")
  else
    match getProfile env c user.Email with
    | some _ =>
      .ok (.Redirect .AccountRegister)
        (FlashError c ("Email '" ++ user.Email ++ "' is already taken."))
    | none =>
      let user0 : User :=
        { user with HashedPassword := env.bcryptGenerate user.Password,
                    Created := env.now, Confirmed := false }
      match insertUser env c.Txn user0 with
      | .error e => .panic e c
      | .ok (user1, db1) =>
        match insertProfile env db1 (newProfile env user1 name) with
        | .error e => .panic e { c with Txn := db1 }
        | .ok (profile, db2) =>
          match sendAccountConfirmEmail env { c with Txn := db2 } (some user1) with
          | .panic e c3 => .panic e c3
          | .ok err c3 =>
            let c4 :=
              match err with
              | some _ => FlashError c3 "Could not send confirmation email"
              | none => c3
            .ok (.Redirect (.ProfileShow profile.ProfileId))
              (FlashSuccess { c4 with Session := mapSet c4.Session "userEmail" user1.Email }
                ("Welcome, " ++ profile.Name))

/-- The handler LoginAccount. -/
def LoginAccount (env : Env) (c : Controller) (email password : String) (remember : Bool) :
    Outcome :=
  let failed : Outcome :=
    .ok (.Redirect .AccountLogin)
      (FlashError { c with Flash := mapSet c.Flash "email" email } "Sign In failed.")
  match getProfile env c email with
  | none => failed
  | some profile =>
    match profile.User with
    | none => .panic "runtime error: nil pointer dereference" c
    | some user =>
      if env.bcryptCompare user.HashedPassword password then
        .ok (.Redirect (.ProfileShow profile.ProfileId))
          (FlashSuccess (DoLogin c user remember) ("Welcome back, " ++ profile.Name))
      else failed

/-- The handler RetrieveAccount. -/
def RetrieveAccount (env : Env) (c : Controller) (email : String) : Outcome :=
  if env.ValidateUserEmail email = false then
    .ok (.Redirect .AccountRecover)
      (FlashError (FlashParams { c with ValidationKept := true }) "Account recovery failed.")
  else
    match getProfile env c email with
    | none =>
      .ok (.Redirect .ApplicationIndex)
        (FlashSuccess c ("A password reset request has been sent to " ++ email ++ "."))
    | some profile =>
      match sendAccountRecoverEmail env c profile.User with
      | .panic e c1 => .panic e c1
      | .ok (some e) c1 => .panic e c1
      | .ok none c1 =>
        .ok (.Redirect .AccountLogin)
          (FlashSuccess c1 ("A password reset request has been sent to " ++ email ++ "."))

/-- The handler ConfirmEmail. -/
def ConfirmEmail (env : Env) (c : Controller) (token : String) : Outcome :=
  match getVerifyHashRecord env c "confirm" token with
  | none => .ok (.Redirect .ApplicationIndex) (FlashError c "Token invalid or used")
  | some existingToken =>
    match getProfile env c existingToken.Email with
    | none => .ok (.Redirect .ApplicationIndex) (FlashError c "Token invalid or used")
    | some existingProfile =>
      match existingProfile.User with
      | none => .panic "runtime error: nil pointer dereference" c
      | some user0 =>
        let user : User := { user0 with Confirmed := true }
        match updateUser env c.Txn user with
        | .error e => .panic e c
        | .ok db =>
          match deleteVerifyHashRecord env { c with Txn := db } existingToken with
          | .panic e c1 => .panic e c1
          | .ok _ c1 => .ok (.Render (some { existingProfile with User := some user })) c1

/-- The handler PasswordReset. -/
def PasswordReset (env : Env) (c : Controller) (token : String) : Outcome :=
  match getVerifyHashRecord env c "reset" token with
  | none => .ok (.Redirect .ApplicationIndex) (FlashError c "Token invalid or used")
  | some existingToken =>
    match getProfile env c existingToken.Email with
    | none => .ok (.Redirect .ApplicationIndex) (FlashError c "Token invalid or used")
    | some existingProfile =>
      match deleteVerifyHashRecord env c existingToken with
      | .panic e c1 => .panic e c1
      | .ok _ c1 =>
        match existingProfile.User with
        | none => .panic "runtime error: nil pointer dereference" c1
        | some user =>
          .ok (.Redirect (.ProfilePassword user.UserId))
            (FlashSuccess (DoLogin c1 user false) "Please now enter a new password")

/-! ## Concrete environments and states used as examples -/

/-- An environment in which every collaborator call succeeds, mail is not
configured, every input validates and bcrypt is the identity on bytes. -/
def env0 : Env :=
  { fails := fun _ => false,
    bcryptGenerate := fun pw => pw.toList.map Char.toNat,
    bcryptCompare := fun h pw => decide (h = pw.toList.map Char.toNat),
    ValidateUserEmail := fun _ => true,
    ValidateUserPassword := fun _ => true,
    ValidateProfileName := fun _ => true,
    now := 0,
    GetAvatarURL := fun _ => none,
    rand := [],
    mailerServer := "smtp.example.org",
    callbackHost := "http://localhost:9000",
    httpAddr := "localhost" }

/-- The environment env0 with the mailer configured and sixteen random bytes. -/
def envMail : Env :=
  { env0 with mailerServer := "smtp.x.test",
              rand := [0, 61, 62, 255, 7, 100, 200, 13, 1, 2, 3, 4, 5, 6, 7, 8] }

/-- The environment env0 in which exactly the call k fails. -/
def envFailing (k : Call) : Env :=
  { env0 with fails := fun j => decide (j = k) }

/-- An empty store. -/
def db0 : Db := { users := [], profiles := [], tokens := [] }

/-- The account real@x.test with password hash of "secret". -/
def userReal : User :=
  { UserId := 1, Email := "real@x.test", Password := "",
    HashedPassword := "secret".toList.map Char.toNat, Created := 0, Confirmed := false }

/-- The stored profile row of userReal. -/
def profileReal : Profile :=
  { ProfileId := 1, UserId := 1, Name := "Real", Summary := "", Description := "",
    PhotoUrl := "", User := none }

/-- A store with the account real@x.test, a confirm token and a reset token for it,
and a reset token whose owner has no account. -/
def db1 : Db :=
  { users := [userReal], profiles := [profileReal],
    tokens := [Token.mk 1 "real@x.test" "confirm" "CONFIRMSECRET",
               Token.mk 2 "real@x.test" "reset" "RESETSECRET",
               Token.mk 3 "gone@x.test" "reset" "ORPHANSECRET"] }

/-- A fresh request context over a store. -/
def ctx (db : Db) : Controller :=
  { Session := [], Flash := [], RenderArgs := none, Params := [], ValidationKept := false,
    Txn := db, Mailed := [] }

/-! ## Basic facts about the transaction handle -/


theorem SelectOne_ok {α : Type} {failed : Bool} {rows : List α} {p : α → Bool} {r : α}
    (h : SelectOne failed rows p = .ok r) : failed = false ∧ rows.filter p = [r] := by
  unfold SelectOne at h
  cases failed with
  | true => simp at h
  | false =>
    refine ⟨rfl, ?_⟩
    simp only [Bool.false_eq_true, if_false] at h
    split at h
    · cases h
    · rename_i heq
      cases h
      exact heq
    · cases h

theorem SelectOne_mem {α : Type} {failed : Bool} {rows : List α} {p : α → Bool} {r : α}
    (h : SelectOne failed rows p = .ok r) : r ∈ rows ∧ p r = true := by
  have h2 := (SelectOne_ok h).2
  have : r ∈ rows.filter p := by rw [h2]; simp
  exact List.mem_filter.mp this

theorem SelectOne_none {α : Type} (failed : Bool) {rows : List α} {p : α → Bool}
    (h : rows.filter p = []) : ∃ e, SelectOne failed rows p = .error e := by
  unfold SelectOne
  cases failed
  · simp [h]
  · exact ⟨_, rfl⟩

theorem getProfile_some {env : Env} {c : Controller} {email : String} {p : Profile}
    (h : getProfile env c email = some p) :
    ∃ u, p.User = some u ∧ u.Email = email ∧ u.UserId = p.UserId
      ∧ c.Txn.users.filter (fun r => decide (r.Email = email)) = [u]
      ∧ c.Txn.users.filter (fun r => decide (r.UserId = p.UserId)) = [u] := by
  unfold getProfile at h
  split at h
  · cases h
  · rename_i user hu
    split at h
    · cases h
    · rename_i profile hp
      cases h
      unfold selectProfileByUserId at hp
      split at hp
      · cases hp
      · rename_i p0 hp0
        unfold ProfilePostGet at hp
        split at hp
        · cases hp
        · rename_i u hk
          cases hp
          have hu1 := SelectOne_ok hu
          have hu2 := SelectOne_mem hu
          have hp2 := SelectOne_mem hp0
          have hk1 := SelectOne_ok hk
          have hk2 := SelectOne_mem hk
          simp only [decide_eq_true_eq] at hu2 hp2 hk2
          have hmem : user ∈ c.Txn.users.filter (fun r => decide (r.UserId = p0.UserId)) := by
            simp [List.mem_filter, hu2.1, hp2.2]
          rw [hk1.2] at hmem
          simp at hmem
          subst hmem
          exact ⟨user, rfl, hu2.2, hp2.2.symm, hu1.2, hk1.2⟩

/-! ## Login -/


/-- C1: whenever LoginAccount fails because getProfile finds no profile for the
submitted email, its response (redirect to Account.Login, flash error
"Sign In failed." with the email echoed, session left as it was) is the same as
its response when the profile exists and bcrypt rejects the password. -/
theorem LoginAccount_anti_enumeration (env₁ env₂ : Env) (c : Controller) (db₁ db₂ : Db)
    (email pw₁ pw₂ : String) (rem₁ rem₂ : Bool) (p : Profile) (u : User)
    (habsent : getProfile env₁ { c with Txn := db₁ } email = none)
    (hexists : getProfile env₂ { c with Txn := db₂ } email = some p)
    (huser : p.User = some u)
    (hbad : env₂.bcryptCompare u.HashedPassword pw₂ = false) :
    response (LoginAccount env₁ { c with Txn := db₁ } email pw₁ rem₁)
        = response (LoginAccount env₂ { c with Txn := db₂ } email pw₂ rem₂)
      ∧ response (LoginAccount env₂ { c with Txn := db₂ } email pw₂ rem₂)
        = some (.Redirect .AccountLogin,
                mapSet (mapSet c.Flash "email" email) "error" "Sign In failed.",
                c.Session)
      ∧ mapGet (mapSet (mapSet c.Flash "email" email) "error" "Sign In failed.") "error"
        = some "Sign In failed." := by
  refine ⟨?_, ?_, ?_⟩
  · simp [LoginAccount, habsent, hexists, huser, hbad, response, FlashError]
  · simp [LoginAccount, hexists, huser, hbad, response, FlashError]
  · simp [mapGet, mapSet]

/-- Witness for C1: nobody@x.test against real@x.test with a wrong password. -/
theorem LoginAccount_anti_enumeration_witness :
    response (LoginAccount env0 { ctx db0 with Txn := db0 } "real@x.test" "whatever" false)
        = response (LoginAccount env0 { ctx db0 with Txn := db1 } "real@x.test" "wrongpass" true)
      ∧ response (LoginAccount env0 { ctx db0 with Txn := db1 } "real@x.test" "wrongpass" true)
        = some (.Redirect .AccountLogin,
                mapSet (mapSet (ctx db0).Flash "email" "real@x.test") "error" "Sign In failed.",
                (ctx db0).Session)
      ∧ mapGet (mapSet (mapSet (ctx db0).Flash "email" "real@x.test") "error" "Sign In failed.")
          "error" = some "Sign In failed." :=
  LoginAccount_anti_enumeration env0 env0 (ctx db0) db0 db1 "real@x.test" "whatever" "wrongpass"
    false true { profileReal with User := some userReal } userReal
    (by decide) (by decide) rfl (by decide)

/-! ## Logout -/

theorem foldl_mapDelete_nil (ks : List String) :
    ∀ m : StrMap, (∀ e ∈ m, e.1 ∈ ks) → ks.foldl mapDelete m = [] := by
  induction ks with
  | nil =>
    intro m h
    cases m with
    | nil => rfl
    | cons e es => exact absurd (h e (List.mem_cons_self _ _)) (List.not_mem_nil _)
  | cons k ks ih =>
    intro m h
    rw [List.foldl_cons]
    apply ih
    intro e he
    have he2 := List.mem_filter.mp he
    have hne : e.1 ≠ k := by simpa using he2.2
    have := h e he2.1
    rcases List.mem_cons.mp this with h1 | h1
    · exact absurd h1 hne
    · exact h1

theorem Logout_clears (c : Controller) :
    Logout c = .ok (.Redirect .AccountLogin)
      (FlashSuccess { c with Session := [] } "You have been successfully logged out") := by
  have h : (mapKeys c.Session).foldl mapDelete c.Session = [] :=
    foldl_mapDelete_nil _ _ (fun e he => List.mem_map.mpr ⟨e, he, rfl⟩)
  simp [Logout, h]

/-- C7 as stated fails: a logged-in request in which AddUser has cached the
profile in RenderArgs still gets that profile from connected() after Logout,
although the session is empty. -/
theorem Logout_connected_cached :
    ∃ c1, Logout (AddUser env0 (DoLogin (ctx db1) userReal true))
        = .ok (.Redirect .AccountLogin) c1
      ∧ c1.Session = []
      ∧ connected env0 c1 = some { profileReal with User := some userReal } :=
  ⟨_, Logout_clears _, rfl, by decide⟩

/-- C7 amended: for every request context, Logout leaves a session with no key at
all and does not touch RenderArgs; connected() afterwards returns nil in every
context that has this session and no profile cached in RenderArgs (whatever the
store holds). -/
theorem Logout_clears_session (c : Controller) :
    ∃ c1, Logout c = .ok (.Redirect .AccountLogin) c1
      ∧ c1.Session = []
      ∧ (∀ k, mapGet c1.Session k = none)
      ∧ c1.RenderArgs = c.RenderArgs
      ∧ ∀ (env : Env) (c2 : Controller), c2.Session = c1.Session → c2.RenderArgs = none →
          connected env c2 = none := by
  refine ⟨_, Logout_clears c, rfl, fun k => rfl, rfl, ?_⟩
  intro env c2 hs hr
  have hs2 : c2.Session = [] := hs
  simp [connected, hr, hs2, mapGet]

/-- Witness for C7: the session left by DoLogin with remember = true. -/
theorem Logout_clears_session_witness :
    ∃ c1, Logout (DoLogin (ctx db1) userReal true) = .ok (.Redirect .AccountLogin) c1
      ∧ c1.Session = [] ∧ connected env0 c1 = none := by
  obtain ⟨c1, h1, h2, _, h3, h4⟩ := Logout_clears_session (DoLogin (ctx db1) userReal true)
  exact ⟨c1, h1, h2, h4 env0 c1 rfl (h3.trans rfl)⟩

/-! ## Verification hash -/

theorem randRead_length (src : List Nat) :
    ∀ buf : List Nat, (randRead src buf).length = buf.length := by
  induction src with
  | nil => intro buf; cases buf <;> simp [randRead]
  | cons s ss ih => intro buf; cases buf <;> simp [randRead, ih]

theorem alphanum_length : alphanum.length = 62 := by decide

/-- The byte value of the character at index i of alphanum, for i below 62. -/
theorem alphanumAt_lt {i : Nat} (h : i < 62) :
    ∃ ch ∈ alphanum.toList, alphanumAt i = some ch.toNat := by
  have hl : i < alphanum.toList.length := by
    have : alphanum.toList.length = 62 := by decide
    omega
  refine ⟨alphanum.toList.get ⟨i, hl⟩, List.get_mem _ _ _, ?_⟩
  unfold alphanumAt
  rw [List.get?_eq_get hl]
  rfl

theorem rangeLoop_spec : ∀ l : List Nat,
    ∃ bs, rangeLoop l = some bs ∧ bs.length = l.length
      ∧ ∀ b ∈ bs, ∃ ch ∈ alphanum.toList, ch.toNat = b := by
  intro l
  induction l with
  | nil => exact ⟨[], rfl, rfl, by simp⟩
  | cons a l ih =>
    obtain ⟨bs, h1, h2, h3⟩ := ih
    have hlt : a % (alphanum.length % 256) < 62 := by
      rw [alphanum_length]; exact Nat.mod_lt _ (by decide)
    obtain ⟨ch, hch, hat⟩ := alphanumAt_lt hlt
    refine ⟨ch.toNat :: bs, ?_, by simp [h2], ?_⟩
    · simp [rangeLoop, hat, h1]
    · intro b hb
      rcases List.mem_cons.mp hb with rfl | hb
      · exact ⟨ch, hch, rfl⟩
      · exact h3 b hb

/-- C3: for every n and every sequence of bytes delivered by the entropy source,
generateVerifyHash(n) returns (without an index panic) exactly n bytes, each of
them a character of the 62-character constant alphanum, and the index
b % byte(len(alphanum)) is always below len(alphanum). -/
theorem generateVerifyHash_alphabet (src : List Nat) (n : Nat) :
    ∃ bs, generateVerifyHash src n = some bs
      ∧ bs.length = n
      ∧ (∀ b ∈ bs, ∃ ch ∈ alphanum.toList, ch.toNat = b)
      ∧ alphanum.length = 62
      ∧ alphanum.toList = "ABCDEFGHIJKLMNOPQRSTUVWXYZ".toList ++ "0123456789".toList
          ++ "abcdefghijklmnopqrstuvwxyz".toList
      ∧ ∀ b : Nat, b % (alphanum.length % 256) < alphanum.length := by
  obtain ⟨bs, h1, h2, h3⟩ := rangeLoop_spec (randRead src (List.replicate n 0))
  refine ⟨bs, h1, ?_, h3, alphanum_length, by decide, ?_⟩
  · rw [h2, randRead_length, List.length_replicate]
  · intro b
    rw [alphanum_length]
    exact Nat.mod_lt _ (by decide)

/-- Witness for C3: sixteen delivered bytes. -/
theorem generateVerifyHash_alphabet_witness :
    ∃ bs, generateVerifyHash [0, 61, 62, 255, 7, 100, 200, 13, 1, 2, 3, 4, 5, 6, 7, 8] 16 = some bs
      ∧ bs.length = 16
      ∧ (∀ b ∈ bs, ∃ ch ∈ alphanum.toList, ch.toNat = b) := by
  obtain ⟨bs, h1, h2, h3, _⟩ :=
    generateVerifyHash_alphabet [0, 61, 62, 255, 7, 100, 200, 13, 1, 2, 3, 4, 5, 6, 7, 8] 16
  exact ⟨bs, h1, h2, h3⟩

/-! ## Token records -/

theorem getVerifyHashRecord_some {env : Env} {c : Controller} {kind secret : String}
    {tok : Token} (h : getVerifyHashRecord env c kind secret = some tok) :
    c.Txn.tokens.filter (fun t => decide (t.Type_ = kind) && decide (t.Hash = secret)) = [tok] := by
  unfold getVerifyHashRecord at h
  split at h
  · cases h
  · rename_i token hs
    cases h
    exact (SelectOne_ok hs).2

theorem getVerifyHashRecord_none_of_filter (env : Env) {c : Controller} {kind secret : String}
    (h : c.Txn.tokens.filter (fun t => decide (t.Type_ = kind) && decide (t.Hash = secret)) = []) :
    getVerifyHashRecord env c kind secret = none := by
  obtain ⟨e, he⟩ := SelectOne_none (env.fails .selectToken) h
  simp [getVerifyHashRecord, selectToken, he]

theorem deleteVerifyHashRecord_ok {env : Env} {c c1 : Controller} {tok : Token}
    (h : deleteVerifyHashRecord env c tok = .ok () c1) :
    env.fails .deleteToken = false
      ∧ c1 = { c with Txn := { c.Txn with
                tokens := c.Txn.tokens.filter (fun r => decide (r.TokenId ≠ tok.TokenId)) } } := by
  unfold deleteVerifyHashRecord deleteToken at h
  cases hf : env.fails .deleteToken with
  | true => simp [hf] at h
  | false =>
    simp only [hf, Bool.false_eq_true, if_false] at h
    injection h with _ h2
    exact ⟨rfl, h2.symm⟩

/-- After the found token is deleted no row matches (kind, secret), neither in the
resulting table nor in any table that holds only rows of it. -/
theorem no_match_after_delete {tokens later : List Token} {kind secret : String} {tok : Token}
    (hfound : tokens.filter (fun t => decide (t.Type_ = kind) && decide (t.Hash = secret)) = [tok])
    (hsub : ∀ t ∈ later, t ∈ tokens.filter (fun r => decide (r.TokenId ≠ tok.TokenId))) :
    later.filter (fun t => decide (t.Type_ = kind) && decide (t.Hash = secret)) = [] := by
  rw [List.filter_eq_nil_iff]
  intro t ht hm
  have h1 := List.mem_filter.mp (hsub t ht)
  have h2 : t ∈ tokens.filter (fun t => decide (t.Type_ = kind) && decide (t.Hash = secret)) :=
    List.mem_filter.mpr ⟨h1.1, hm⟩
  rw [hfound] at h2
  have h3 : t = tok := by simpa using h2
  have h4 : t.TokenId ≠ tok.TokenId := by simpa using h1.2
  exact h4 (by rw [h3])

/-- C4: once the token found by getVerifyHashRecord(kind, secret) has been deleted
with deleteVerifyHashRecord, the token is gone from the store and
getVerifyHashRecord(kind, secret) returns nil on the resulting store and on every
later store to which no token has been added. -/
theorem token_single_use (env env2 : Env) (c c1 c2 : Controller) (kind secret : String)
    (tok : Token)
    (hfound : getVerifyHashRecord env c kind secret = some tok)
    (hdel : deleteVerifyHashRecord env c tok = .ok () c1)
    (hlater : ∀ t ∈ c2.Txn.tokens, t ∈ c1.Txn.tokens) :
    tok ∉ c1.Txn.tokens
      ∧ getVerifyHashRecord env2 c1 kind secret = none
      ∧ getVerifyHashRecord env2 c2 kind secret = none := by
  have hf := getVerifyHashRecord_some hfound
  have hc1 := (deleteVerifyHashRecord_ok hdel).2
  have ht1 : c1.Txn.tokens
      = c.Txn.tokens.filter (fun r => decide (r.TokenId ≠ tok.TokenId)) := by rw [hc1]
  refine ⟨?_, ?_, ?_⟩
  · rw [ht1]
    intro hmem
    have := (List.mem_filter.mp hmem).2
    simp at this
  · apply getVerifyHashRecord_none_of_filter
    exact no_match_after_delete hf (fun t ht => by rw [← ht1]; exact ht)
  · apply getVerifyHashRecord_none_of_filter
    exact no_match_after_delete hf (fun t ht => by rw [← ht1]; exact hlater t ht)

/-- Witness for C4: the reset token of real@x.test in the example store. -/
theorem token_single_use_witness :
    Token.mk 2 "real@x.test" "reset" "RESETSECRET"
        ∉ (ctx { db1 with tokens := [Token.mk 1 "real@x.test" "confirm" "CONFIRMSECRET",
                                     Token.mk 3 "gone@x.test" "reset" "ORPHANSECRET"] }).Txn.tokens
      ∧ getVerifyHashRecord env0
          (ctx { db1 with tokens := [Token.mk 1 "real@x.test" "confirm" "CONFIRMSECRET",
                                     Token.mk 3 "gone@x.test" "reset" "ORPHANSECRET"] })
          "reset" "RESETSECRET" = none
      ∧ getVerifyHashRecord env0
          (ctx { db1 with tokens := [Token.mk 3 "gone@x.test" "reset" "ORPHANSECRET"] })
          "reset" "RESETSECRET" = none :=
  token_single_use env0 env0 (ctx db1) _ _ "reset" "RESETSECRET"
    (Token.mk 2 "real@x.test" "reset" "RESETSECRET") (by decide) rfl (by decide)

/-! ## Profiles -/

theorem SelectOne_of_filter {α : Type} {rows : List α} {p : α → Bool} {r : α}
    (h : rows.filter p = [r]) : SelectOne false rows p = .ok r := by
  simp [SelectOne, h]

/-- What a successful getProfile says about the store and the calls it made. -/
theorem getProfile_inv {env : Env} {c : Controller} {email : String} {p : Profile}
    (h : getProfile env c email = some p) :
    ∃ u p0, p = { p0 with User := some u }
      ∧ env.fails .selectUser = false ∧ env.fails .selectProfile = false
      ∧ env.fails .getUser = false
      ∧ u.Email = email ∧ p0.UserId = u.UserId
      ∧ c.Txn.users.filter (fun r => decide (r.Email = email)) = [u]
      ∧ c.Txn.profiles.filter (fun r => decide (r.UserId = u.UserId)) = [p0]
      ∧ c.Txn.users.filter (fun r => decide (r.UserId = u.UserId)) = [u] := by
  unfold getProfile at h
  split at h
  · cases h
  · rename_i user hu
    split at h
    · cases h
    · rename_i profile hp
      cases h
      unfold selectProfileByUserId at hp
      split at hp
      · cases hp
      · rename_i p0 hp0
        unfold ProfilePostGet at hp
        split at hp
        · cases hp
        · rename_i u hk
          cases hp
          have hu1 := SelectOne_ok hu
          have hu2 := SelectOne_mem hu
          have hp1 := SelectOne_ok hp0
          have hp2 := SelectOne_mem hp0
          have hk1 := SelectOne_ok hk
          simp only [decide_eq_true_eq] at hu2 hp2
          have hmem : user ∈ c.Txn.users.filter (fun r => decide (r.UserId = p0.UserId)) := by
            simp [List.mem_filter, hu2.1, hp2.2]
          rw [hk1.2] at hmem
          simp at hmem
          subst hmem
          refine ⟨user, p0, rfl, hu1.1, hp1.1, hk1.1, hu2.2, hp2.2, hu1.2, hp1.2, ?_⟩
          rw [← hp2.2]
          exact hk1.2

/-- The store facts that make getProfile succeed. -/
theorem getProfile_intro {env : Env} {c : Controller} {email : String} {u : User} {p0 : Profile}
    (h1 : env.fails .selectUser = false) (h2 : env.fails .selectProfile = false)
    (h3 : env.fails .getUser = false)
    (hu : c.Txn.users.filter (fun r => decide (r.Email = email)) = [u])
    (hp : c.Txn.profiles.filter (fun r => decide (r.UserId = u.UserId)) = [p0])
    (hk : c.Txn.users.filter (fun r => decide (r.UserId = u.UserId)) = [u]) :
    getProfile env c email = some { p0 with User := some u } := by
  have hp0 : p0.UserId = u.UserId := by
    have : p0 ∈ c.Txn.profiles.filter (fun r => decide (r.UserId = u.UserId)) := by
      rw [hp]; simp
    simpa using (List.mem_filter.mp this).2
  simp [getProfile, selectUserByEmail, selectProfileByUserId, ProfilePostGet, getUserByKey,
    h1, h2, h3, SelectOne_of_filter hu, SelectOne_of_filter hp, hp0, SelectOne_of_filter hk]

theorem getProfile_none_of_no_user (env : Env) {c : Controller} {email : String}
    (h : c.Txn.users.filter (fun r => decide (r.Email = email)) = []) :
    getProfile env c email = none := by
  obtain ⟨e, he⟩ := SelectOne_none (env.fails .selectUser) h
  simp [getProfile, selectUserByEmail, he]

/-- Replacing the rows with the key of u by a row with the same key and e-mail
commutes with a filter that only looks at a column the replacement keeps. -/
theorem filter_update {users : List User} {u v : User} (q : User → Bool)
    (hk : users.filter (fun r => decide (r.UserId = u.UserId)) = [u])
    (hq : q v = q u) :
    (users.map (fun r => if r.UserId = u.UserId then v else r)).filter q
      = (users.filter q).map (fun r => if r.UserId = u.UserId then v else r) := by
  rw [List.filter_map]
  congr 1
  apply List.filter_congr
  intro r hr
  simp only [Function.comp]
  by_cases hid : r.UserId = u.UserId
  · have : r ∈ users.filter (fun r => decide (r.UserId = u.UserId)) :=
      List.mem_filter.mpr ⟨hr, by simpa using hid⟩
    rw [hk] at this
    have hru : r = u := by simpa using this
    simp [hru, hq]
  · simp [hid]

/-! ## ConfirmEmail -/

/-- The outcome of ConfirmEmail when the token and the profile are found and the
update and the delete succeed. -/
theorem ConfirmEmail_success {env : Env} {c : Controller} {s : String} {tok : Token}
    {p : Profile} {u : User}
    (htok : getVerifyHashRecord env c "confirm" s = some tok)
    (hprof : getProfile env c tok.Email = some p)
    (huser : p.User = some u)
    (hupd : env.fails .updateUser = false)
    (hdel : env.fails .deleteToken = false) :
    ConfirmEmail env c s
      = .ok (.Render (some { p with User := some { u with Confirmed := true } }))
          { c with Txn :=
              { users := c.Txn.users.map (fun r =>
                  if r.UserId = u.UserId then { u with Confirmed := true, Password := "" } else r),
                profiles := c.Txn.profiles,
                tokens := c.Txn.tokens.filter (fun r => decide (r.TokenId ≠ tok.TokenId)) } } := by
  simp [ConfirmEmail, htok, hprof, huser, updateUser, hupd, deleteVerifyHashRecord, deleteToken,
    hdel]

/-- C5: in every state in which the 'confirm' token with secret s and the profile
of its (unconfirmed) account are found, ConfirmEmail(s) stores Confirmed = true
for that account and deletes the token; getProfile then shows the account as
confirmed; a second ConfirmEmail(s) on the resulting store reports
"Token invalid or used" and leaves the store as it is. -/
theorem ConfirmEmail_once (env env2 : Env) (c : Controller) (s : String) (tok : Token)
    (p : Profile) (u : User)
    (htok : getVerifyHashRecord env c "confirm" s = some tok)
    (hprof : getProfile env c tok.Email = some p)
    (huser : p.User = some u)
    (hunconfirmed : u.Confirmed = false)
    (hupd : env.fails .updateUser = false)
    (hdel : env.fails .deleteToken = false) :
    ∃ c1, ConfirmEmail env c s
          = .ok (.Render (some { p with User := some { u with Confirmed := true } })) c1
      ∧ getProfile env c1 tok.Email
          = some { p with User := some { u with Confirmed := true, Password := "" } }
      ∧ (∀ r ∈ c1.Txn.users, r.UserId = u.UserId → r.Confirmed = true)
      ∧ tok ∉ c1.Txn.tokens
      ∧ c1.Txn.tokens = c.Txn.tokens.filter (fun r => decide (r.TokenId ≠ tok.TokenId))
      ∧ ∀ c2 : Controller, c2.Txn = c1.Txn →
          ConfirmEmail env2 c2 s
            = .ok (.Redirect .ApplicationIndex) (FlashError c2 "Token invalid or used")
          ∧ (FlashError c2 "Token invalid or used").Txn = c1.Txn
          ∧ mapGet (FlashError c2 "Token invalid or used").Flash "error"
              = some "Token invalid or used" := by
  refine ⟨_, ConfirmEmail_success htok hprof huser hupd hdel, ?_, ?_, ?_, rfl, ?_⟩
  · obtain ⟨u0, p0, hp, h1, h2, h3, hmail, hpid, hfu, hfp, hfk⟩ := getProfile_inv hprof
    have hu0 : u0 = u := by
      rw [hp] at huser
      simpa using huser
    subst hu0
    have hres : ({ p with User := some { u0 with Confirmed := true, Password := "" } } : Profile)
        = { p0 with User := some { u0 with Confirmed := true, Password := "" } } := by
      rw [hp]
    rw [hres]
    apply getProfile_intro h1 h2 h3
    · show (c.Txn.users.map _).filter _ = _
      rw [filter_update _ hfk (by simp), hfu]
      simp
    · exact hfp
    · show (c.Txn.users.map _).filter _ = _
      rw [filter_update _ hfk (by simp), hfk]
      simp
  · intro r hr hid
    obtain ⟨r0, _, hr0⟩ := List.mem_map.mp hr
    by_cases h : r0.UserId = u.UserId
    · simp [h] at hr0
      rw [← hr0]
    · simp [h] at hr0
      rw [hr0] at h
      exact absurd hid h
  · intro hmem
    have := (List.mem_filter.mp hmem).2
    simp at this
  · intro c2 hc2
    have hnone : getVerifyHashRecord env2 c2 "confirm" s = none := by
      apply getVerifyHashRecord_none_of_filter
      rw [hc2]
      exact no_match_after_delete (getVerifyHashRecord_some htok) (fun t ht => ht)
    refine ⟨?_, hc2, ?_⟩
    · simp [ConfirmEmail, hnone]
    · simp [FlashError, mapGet, mapSet]

/-- Witness for C5: the confirm token of real@x.test in the example store. -/
theorem ConfirmEmail_once_witness :
    ∃ c1, ConfirmEmail env0 (ctx db1) "CONFIRMSECRET"
          = .ok (.Render (some { profileReal with User := some { userReal with Confirmed := true } }))
              c1
      ∧ getProfile env0 c1 "real@x.test"
          = some { profileReal with User := some { userReal with Confirmed := true } }
      ∧ ConfirmEmail env0 c1 "CONFIRMSECRET"
          = .ok (.Redirect .ApplicationIndex) (FlashError c1 "Token invalid or used") := by
  obtain ⟨c1, h1, h2, _, _, _, h6⟩ :=
    ConfirmEmail_once env0 env0 (ctx db1) "CONFIRMSECRET"
      (Token.mk 1 "real@x.test" "confirm" "CONFIRMSECRET")
      { profileReal with User := some userReal } userReal
      (by decide) (by decide) rfl rfl rfl rfl
  exact ⟨c1, h1, h2, (h6 c1 rfl).1⟩

/-! ## PasswordReset -/

theorem mapGet_DoLogin_ephemeral (s : StrMap) (email : String) :
    mapGet (SetNoExpiration (mapSet s "userEmail" email)) "userEmail" = some email
      ∧ mapGet (SetNoExpiration (mapSet s "userEmail" email)) TIMESTAMP_KEY = some "session" := by
  constructor
  · have h1 : ¬ (TIMESTAMP_KEY = "userEmail") := by decide
    have h2 : ¬ ("userEmail" = TIMESTAMP_KEY) := by decide
    simp [SetNoExpiration, mapSet, mapGet, mapDelete, List.find?, List.filter, h1, h2]
  · simp [SetNoExpiration, mapSet, mapGet]

/-- The outcome of PasswordReset when the token and the profile are found and the
delete succeeds. -/
theorem PasswordReset_success {env : Env} {c : Controller} {s : String} {tok : Token}
    {p : Profile} {u : User}
    (htok : getVerifyHashRecord env c "reset" s = some tok)
    (hprof : getProfile env c tok.Email = some p)
    (huser : p.User = some u)
    (hdel : env.fails .deleteToken = false) :
    PasswordReset env c s
      = .ok (.Redirect (.ProfilePassword u.UserId))
          (FlashSuccess
            (DoLogin
              { c with Txn :=
                  { users := c.Txn.users, profiles := c.Txn.profiles,
                    tokens := c.Txn.tokens.filter (fun r => decide (r.TokenId ≠ tok.TokenId)) } }
              u false)
            "Please now enter a new password") := by
  simp [PasswordReset, htok, hprof, huser, deleteVerifyHashRecord, deleteToken, hdel]

/-- C8 as stated fails: a 'reset' token is found, but its owner has no profile;
PasswordReset reports "Token invalid or used", the token stays in the store and
the session gets no identity. -/
theorem PasswordReset_owner_missing :
    getVerifyHashRecord env0 (ctx db1) "reset" "ORPHANSECRET"
        = some (Token.mk 3 "gone@x.test" "reset" "ORPHANSECRET")
      ∧ PasswordReset env0 (ctx db1) "ORPHANSECRET"
        = .ok (.Redirect .ApplicationIndex) (FlashError (ctx db1) "Token invalid or used")
      ∧ Token.mk 3 "gone@x.test" "reset" "ORPHANSECRET"
          ∈ (FlashError (ctx db1) "Token invalid or used").Txn.tokens
      ∧ mapGet (FlashError (ctx db1) "Token invalid or used").Session "userEmail" = none := by
  refine ⟨by decide, ?_, by decide, by decide⟩
  have h1 : getVerifyHashRecord env0 (ctx db1) "reset" "ORPHANSECRET"
      = some (Token.mk 3 "gone@x.test" "reset" "ORPHANSECRET") := by decide
  have h2 : getProfile env0 (ctx db1) "gone@x.test" = none := by decide
  simp [PasswordReset, h1, h2]

/-- C8 amended: when getVerifyHashRecord("reset", s) finds a token and getProfile
finds the profile of the token's e-mail, PasswordReset(s) deletes the token and
then logs the caller in under the token's e-mail with the ephemeral marker
(remember = false); when the delete fails it panics with the session untouched,
so the token is consumed before the session changes.  When the token or the
profile is not found it reports "Token invalid or used" and changes neither the
session nor the store. -/
theorem PasswordReset_by_token (env : Env) (c : Controller) (s : String) :
    (∀ tok p, getVerifyHashRecord env c "reset" s = some tok →
        getProfile env c tok.Email = some p →
        (env.fails .deleteToken = false →
          ∃ u c1, p.User = some u
            ∧ PasswordReset env c s = .ok (.Redirect (.ProfilePassword u.UserId)) c1
            ∧ c1.Session = SetNoExpiration (mapSet c.Session "userEmail" tok.Email)
            ∧ mapGet c1.Session "userEmail" = some tok.Email
            ∧ mapGet c1.Session TIMESTAMP_KEY = some "session"
            ∧ c1.Txn.tokens = c.Txn.tokens.filter (fun r => decide (r.TokenId ≠ tok.TokenId))
            ∧ tok ∉ c1.Txn.tokens
            ∧ ∀ env2, getVerifyHashRecord env2 c1 "reset" s = none)
        ∧ (env.fails .deleteToken = true →
          ∃ e, PasswordReset env c s = .panic e c))
      ∧ (getVerifyHashRecord env c "reset" s = none →
          PasswordReset env c s
            = .ok (.Redirect .ApplicationIndex) (FlashError c "Token invalid or used")
          ∧ (FlashError c "Token invalid or used").Session = c.Session
          ∧ (FlashError c "Token invalid or used").Txn = c.Txn)
      ∧ (∀ tok, getVerifyHashRecord env c "reset" s = some tok →
          getProfile env c tok.Email = none →
          PasswordReset env c s
            = .ok (.Redirect .ApplicationIndex) (FlashError c "Token invalid or used")) := by
  refine ⟨?_, ?_, ?_⟩
  · intro tok p htok hprof
    obtain ⟨u, hu, hmail, _, _, _⟩ := getProfile_some hprof
    constructor
    · intro hdel
      have hs := mapGet_DoLogin_ephemeral c.Session tok.Email
      refine ⟨u, _, hu, PasswordReset_success htok hprof hu hdel, ?_, ?_, ?_, rfl, ?_, ?_⟩
      · simp [FlashSuccess, DoLogin, hmail]
      · simpa [FlashSuccess, DoLogin, hmail] using hs.1
      · simpa [FlashSuccess, DoLogin, hmail] using hs.2
      · intro hmem
        have := (List.mem_filter.mp hmem).2
        simp at this
      · intro env2
        apply getVerifyHashRecord_none_of_filter
        exact no_match_after_delete (getVerifyHashRecord_some htok) (fun t ht => ht)
    · intro hdel
      exact ⟨_, by simp [PasswordReset, htok, hprof, deleteVerifyHashRecord, deleteToken, hdel]; rfl⟩
  · intro hnone
    exact ⟨by simp [PasswordReset, hnone], rfl, rfl⟩
  · intro tok htok hprof
    simp [PasswordReset, htok, hprof]

/-- Witness for C8: the reset token of real@x.test (delete succeeding and delete
failing), an unknown secret, and the token whose owner has no profile. -/
theorem PasswordReset_by_token_witness :
    (∃ u c1, ({ profileReal with User := some userReal } : Profile).User = some u
        ∧ PasswordReset env0 (ctx db1) "RESETSECRET"
            = .ok (.Redirect (.ProfilePassword u.UserId)) c1
        ∧ mapGet c1.Session "userEmail" = some "real@x.test"
        ∧ Token.mk 2 "real@x.test" "reset" "RESETSECRET" ∉ c1.Txn.tokens)
      ∧ (∃ e, PasswordReset (envFailing .deleteToken) (ctx db1) "RESETSECRET"
            = .panic e (ctx db1))
      ∧ PasswordReset env0 (ctx db1) "NOSUCHSECRET"
          = .ok (.Redirect .ApplicationIndex) (FlashError (ctx db1) "Token invalid or used")
      ∧ PasswordReset env0 (ctx db1) "ORPHANSECRET"
          = .ok (.Redirect .ApplicationIndex) (FlashError (ctx db1) "Token invalid or used") := by
  refine ⟨?_, ?_, ?_, ?_⟩
  · obtain ⟨u, c1, h1, h2, _, h4, _, _, h7, _⟩ :=
      ((PasswordReset_by_token env0 (ctx db1) "RESETSECRET").1
        (Token.mk 2 "real@x.test" "reset" "RESETSECRET")
        { profileReal with User := some userReal } (by decide) (by decide)).1 rfl
    exact ⟨u, c1, h1, h2, h4, h7⟩
  · exact ((PasswordReset_by_token (envFailing .deleteToken) (ctx db1) "RESETSECRET").1
        (Token.mk 2 "real@x.test" "reset" "RESETSECRET")
        { profileReal with User := some userReal } (by decide) (by decide)).2 rfl
  · exact ((PasswordReset_by_token env0 (ctx db1) "NOSUCHSECRET").2.1 (by decide)).1
  · exact (PasswordReset_by_token env0 (ctx db1) "ORPHANSECRET").2.2
      (Token.mk 3 "gone@x.test" "reset" "ORPHANSECRET") (by decide) (by decide)

/-! ## SaveUser -/

theorem foldl_max_ge (l : List Nat) : ∀ a : Nat,
    a ≤ l.foldl max a ∧ ∀ k ∈ l, k ≤ l.foldl max a := by
  induction l with
  | nil => intro a; exact ⟨Nat.le_refl _, by simp⟩
  | cons x xs ih =>
    intro a
    rw [List.foldl_cons]
    obtain ⟨h1, h2⟩ := ih (max a x)
    refine ⟨Nat.le_trans (Nat.le_max_left a x) h1, ?_⟩
    intro k hk
    rcases List.mem_cons.mp hk with rfl | hk
    · exact Nat.le_trans (Nat.le_max_right a k) h1
    · exact h2 k hk

/-- The key of an inserted row is larger than every key in the table. -/
theorem lt_nextKey {keys : List Nat} {k : Nat} (h : k ∈ keys) : k < nextKey keys :=
  Nat.lt_succ_of_le ((foldl_max_ge keys 0).2 k h)

/-- The function sendEmail, called with a user, returns normally and touches only
the Token table and the sent mails. -/
theorem sendEmail_frame (env : Env) (c : Controller) (u : User) (verifyType subject : String) :
    ∃ err c3, sendEmail env c (some u) verifyType subject = .ok err c3
      ∧ c3.Txn.users = c.Txn.users ∧ c3.Txn.profiles = c.Txn.profiles
      ∧ c3.Session = c.Session ∧ c3.Flash = c.Flash := by
  unfold sendEmail
  by_cases hm : env.mailerServer = "smtp.example.org"
  · exact ⟨none, c, by simp [hm], rfl, rfl, rfl, rfl⟩
  · obtain ⟨bs, hbs, _⟩ := rangeLoop_spec (randRead env.rand (List.replicate 16 0))
    have hbs : generateVerifyHash env.rand 16 = some bs := hbs
    simp only [hm, if_false, hbs]
    have hstore : ∀ e t h, (storeVerifyHashRecord env c e t h).2.Txn.users = c.Txn.users
        ∧ (storeVerifyHashRecord env c e t h).2.Txn.profiles = c.Txn.profiles
        ∧ (storeVerifyHashRecord env c e t h).2.Session = c.Session
        ∧ (storeVerifyHashRecord env c e t h).2.Flash = c.Flash := by
      intro e t h
      unfold storeVerifyHashRecord insertToken
      by_cases hf : env.fails .insertToken = true
      · simp [hf]
      · simp [hf]
    obtain ⟨h1, h2, h3, h4⟩ := hstore u.Email verifyType bs
    by_cases hr : env.fails .renderTemplate = true
    · rw [if_pos hr]
      exact ⟨_, _, rfl, h1, h2, h3, h4⟩
    · rw [if_neg hr]
      by_cases hs : env.fails .sendMessage = true
      · rw [if_pos hs]
        exact ⟨_, _, rfl, h1, h2, h3, h4⟩
      · rw [if_neg hs]
        exact ⟨_, _, rfl, h1, h2, h3, h4⟩

theorem newProfile_fields (env : Env) (u : User) (name : String) :
    (newProfile env u name).UserId = u.UserId ∧ (newProfile env u name).Name = name := by
  unfold newProfile
  cases env.GetAvatarURL u.Email <;> exact ⟨rfl, rfl⟩

/-- The handler SaveUser along the path on which the input is valid, no profile is
found and both inserts succeed. -/
theorem SaveUser_eq {env : Env} {c : Controller} {user : User} {name verifyPassword : String}
    {u1 : User} {db1 db2 : Db} {p : Profile} {err : Option String} {c3 : Controller}
    (hvalid : SaveUserValid env user name verifyPassword = true)
    (hnone : getProfile env c user.Email = none)
    (h1 : insertUser env c.Txn
            { user with HashedPassword := env.bcryptGenerate user.Password,
                        Created := env.now, Confirmed := false } = .ok (u1, db1))
    (h2 : insertProfile env db1 (newProfile env u1 name) = .ok (p, db2))
    (h3 : sendAccountConfirmEmail env { c with Txn := db2 } (some u1) = .ok err c3) :
    ∃ c4 : Controller, c4.Session = c3.Session ∧ c4.Txn = c3.Txn ∧
      SaveUser env c user name verifyPassword
        = .ok (.Redirect (.ProfileShow p.ProfileId))
            (FlashSuccess { c4 with Session := mapSet c4.Session "userEmail" u1.Email }
              ("Welcome, " ++ p.Name)) := by
  unfold SaveUser
  simp only [hvalid, Bool.true_eq_false, if_false, hnone, h1, h2, h3]
  cases err with
  | none => exact ⟨c3, rfl, rfl, rfl⟩
  | some e => exact ⟨FlashError c3 "Could not send confirmation email", rfl, rfl, rfl⟩

theorem insertUser_ok (env : Env) (db : Db) (u : User) (h : env.fails .insertUser = false) :
    ∃ u1 db1, insertUser env db u = .ok (u1, db1)
      ∧ u1 = { u with UserId := nextKey (db.users.map (fun r => r.UserId)) }
      ∧ db1.users = db.users ++ [{ u1 with Password := "" }]
      ∧ db1.profiles = db.profiles := by
  refine ⟨{ u with UserId := nextKey (db.users.map (fun r => r.UserId)) },
    { db with users := (db.users ++
        [{ u with UserId := nextKey (db.users.map (fun r => r.UserId)), Password := "" }]) },
    ?_, rfl, rfl, rfl⟩
  simp [insertUser, h]

theorem insertProfile_ok (env : Env) (db : Db) (p : Profile)
    (h : env.fails .insertProfile = false) :
    ∃ p1 db2, insertProfile env db p = .ok (p1, db2)
      ∧ p1 = { p with ProfileId := nextKey (db.profiles.map (fun r => r.ProfileId)) }
      ∧ db2.users = db.users
      ∧ db2.profiles = db.profiles ++ [{ p1 with User := none }] := by
  refine ⟨{ p with ProfileId := nextKey (db.profiles.map (fun r => r.ProfileId)) },
    { db with profiles := (db.profiles ++
        [{ p with ProfileId := nextKey (db.profiles.map (fun r => r.ProfileId)),
                  User := none }]) },
    ?_, rfl, rfl, rfl⟩
  simp [insertProfile, h]

theorem filter_append_fresh {α : Type} (l : List α) (a : α) (q : α → Bool)
    (hl : ∀ r ∈ l, q r = false) (ha : q a = true) : (l ++ [a]).filter q = [a] := by
  rw [List.filter_append]
  have : l.filter q = [] := by
    rw [List.filter_eq_nil_iff]
    intro r hr
    simp [hl r hr]
  simp [this, ha]

/-- C6: on a store with no account for e-mail e (and whose profile rows all belong
to a user row), SaveUser with valid input succeeds (both inserts succeeding) and
leaves exactly one account for e, with Confirmed = false; a second valid SaveUser
for e on the resulting store reports "Email 'e' is already taken." and leaves the
store as it is, so no User and no Profile row is inserted. -/
theorem SaveUser_duplicate (env env2 : Env) (c : Controller) (user user2 : User)
    (name verifyPassword name2 verifyPassword2 : String)
    (hvalid : SaveUserValid env user name verifyPassword = true)
    (hnew : ∀ r ∈ c.Txn.users, r.Email ≠ user.Email)
    (href : ∀ p ∈ c.Txn.profiles, ∃ r ∈ c.Txn.users, r.UserId = p.UserId)
    (hiu : env.fails .insertUser = false) (hip : env.fails .insertProfile = false)
    (hsame : user2.Email = user.Email)
    (hvalid2 : SaveUserValid env2 user2 name2 verifyPassword2 = true)
    (hsu : env2.fails .selectUser = false) (hsp : env2.fails .selectProfile = false)
    (hgu : env2.fails .getUser = false) :
    ∃ c1 pid nu, SaveUser env c user name verifyPassword = .ok (.Redirect (.ProfileShow pid)) c1
      ∧ c1.Txn.users = c.Txn.users ++ [nu]
      ∧ c1.Txn.users.filter (fun r => decide (r.Email = user.Email)) = [nu]
      ∧ nu.Email = user.Email ∧ nu.Confirmed = false
      ∧ nu.HashedPassword = env.bcryptGenerate user.Password
      ∧ mapGet c1.Session "userEmail" = some user.Email
      ∧ ∀ c2 : Controller, c2.Txn = c1.Txn →
          SaveUser env2 c2 user2 name2 verifyPassword2
            = .ok (.Redirect .AccountRegister)
                (FlashError c2 ("Email '" ++ user.Email ++ "' is already taken."))
          ∧ (FlashError c2 ("Email '" ++ user.Email ++ "' is already taken.")).Txn = c1.Txn
          ∧ mapGet (FlashError c2 ("Email '" ++ user.Email ++ "' is already taken.")).Flash
              "error" = some ("Email '" ++ user.Email ++ "' is already taken.") := by
  have hfilter0 : ∀ r ∈ c.Txn.users, decide (r.Email = user.Email) = false := by
    intro r hr
    simpa using hnew r hr
  have hnone : getProfile env c user.Email = none := by
    apply getProfile_none_of_no_user
    rw [List.filter_eq_nil_iff]
    intro r hr
    simp [hfilter0 r hr]
  obtain ⟨u1, db1, h1, hu1, hdb1u, hdb1p⟩ := insertUser_ok env c.Txn
    { user with HashedPassword := env.bcryptGenerate user.Password,
                Created := env.now, Confirmed := false } hiu
  obtain ⟨p1, db2, h2, hp1, hdb2u, hdb2p⟩ :=
    insertProfile_ok env db1 (newProfile env u1 name) hip
  obtain ⟨err, c3, h3, h3u, h3p, h3s, _⟩ :=
    sendEmail_frame env { c with Txn := db2 } u1 "confirm" ("Welcome to " ++ env.httpAddr)
  obtain ⟨c4, h4s, h4t, h4⟩ := SaveUser_eq hvalid hnone h1 h2 h3
  have hkey : ∀ r ∈ c.Txn.users, r.UserId < nextKey (c.Txn.users.map (fun r => r.UserId)) :=
    fun r hr => lt_nextKey (List.mem_map.mpr ⟨r, hr, rfl⟩)
  have husers : c4.Txn.users = c.Txn.users ++ [{ u1 with Password := "" }] := by
    rw [h4t, h3u]
    show db2.users = _
    rw [hdb2u, hdb1u]
  have hprofiles : c4.Txn.profiles = c.Txn.profiles ++ [{ p1 with User := none }] := by
    rw [h4t, h3p]
    show db2.profiles = _
    rw [hdb2p, hdb1p]
  have hu1mail : u1.Email = user.Email := by rw [hu1]
  have hu1id : u1.UserId = nextKey (c.Txn.users.map (fun r => r.UserId)) := by rw [hu1]
  have hfmail : c4.Txn.users.filter (fun r => decide (r.Email = user.Email))
      = [{ u1 with Password := "" }] := by
    rw [husers]
    exact filter_append_fresh _ _ _ hfilter0 (by simp [hu1mail])
  refine ⟨_, _, { u1 with Password := "" }, h4, husers, hfmail, hu1mail, by rw [hu1],
    by rw [hu1], ?_, ?_⟩
  · simp [FlashSuccess, mapGet, mapSet, hu1mail]
  · intro c2 hc2
    have hprof : ∃ p2, getProfile env2 c2 user.Email = some p2 := by
      refine ⟨_, @getProfile_intro env2 c2 user.Email { u1 with Password := "" }
        { p1 with User := none } hsu hsp hgu ?_ ?_ ?_⟩
      · rw [hc2]
        exact hfmail
      · rw [hc2]
        show c4.Txn.profiles.filter _ = _
        rw [hprofiles]
        apply filter_append_fresh
        · intro p hp
          obtain ⟨r, hr, hrp⟩ := href p hp
          have := hkey r hr
          have hne : p.UserId ≠ u1.UserId := by rw [hu1id]; omega
          simpa using hne
        · simp [hp1, (newProfile_fields env u1 name).1]
      · rw [hc2]
        show c4.Txn.users.filter _ = _
        rw [husers]
        apply filter_append_fresh
        · intro r hr
          have := hkey r hr
          have hne : r.UserId ≠ u1.UserId := by rw [hu1id]; omega
          simpa using hne
        · simp
    obtain ⟨p2, hp2⟩ := hprof
    refine ⟨?_, hc2, ?_⟩
    · unfold SaveUser
      simp only [hvalid2, Bool.true_eq_false, if_false, hsame, hp2]
    · simp [FlashError, mapGet, mapSet]

/-- Witness for C6: new@x.test registers twice on the example store. -/
theorem SaveUser_duplicate_witness :
    ∃ c1 pid nu,
      SaveUser envMail (ctx db1) { userReal with Email := "new@x.test", Password := "pw1" }
          "New" "pw1" = .ok (.Redirect (.ProfileShow pid)) c1
      ∧ c1.Txn.users = (ctx db1).Txn.users ++ [nu]
      ∧ nu.Confirmed = false
      ∧ SaveUser env0 c1 { userReal with Email := "new@x.test", Password := "pw2" }
          "Other" "pw2"
        = .ok (.Redirect .AccountRegister)
            (FlashError c1 ("Email '" ++ "new@x.test" ++ "' is already taken.")) := by
  obtain ⟨c1, pid, nu, h1, h2, _, _, h5, _, _, h8⟩ :=
    SaveUser_duplicate envMail env0 (ctx db1)
      { userReal with Email := "new@x.test", Password := "pw1" }
      { userReal with Email := "new@x.test", Password := "pw2" }
      "New" "pw1" "Other" "pw2" (by decide) (by decide) (by decide) rfl rfl rfl (by decide)
      rfl rfl rfl
  exact ⟨c1, pid, nu, h1, h2, h5, (h8 c1 rfl).1⟩

/-! ## Entropy of the verification hash -/

/-- The byte the loop writes for the byte b. -/
theorem enc_exists (b : Nat) : ∃ x, alphanumAt (b % (alphanum.length % 256)) = some x := by
  have hlt : b % (alphanum.length % 256) < 62 := by
    rw [alphanum_length]; exact Nat.mod_lt _ (by decide)
  obtain ⟨ch, _, h⟩ := alphanumAt_lt hlt
  exact ⟨_, h⟩

theorem rangeLoop_map (l : List Nat) :
    rangeLoop l = some (l.map (fun b => (alphanumAt (b % (alphanum.length % 256))).getD 0)) := by
  induction l with
  | nil => rfl
  | cons a l ih =>
    obtain ⟨x, hx⟩ := enc_exists a
    simp [rangeLoop, ih, hx]

theorem randRead_full : ∀ (src buf : List Nat), src.length = buf.length →
    randRead src buf = src.map (fun s => s % 256) := by
  intro src
  induction src with
  | nil => intro buf h; cases buf with
    | nil => rfl
    | cons b bs => simp at h
  | cons s ss ih => intro buf h; cases buf with
    | nil => simp at h
    | cons b bs =>
      simp only [List.length_cons, Nat.succ.injEq, add_left_inj] at h
      simp [randRead, ih bs h]

theorem secretOf_eq (v : Fin 16 → Fin 256) :
    secretOf v = some (List.ofFn
      (fun i => (alphanumAt ((v i).val % (alphanum.length % 256))).getD 0)) := by
  unfold secretOf generateVerifyHash
  rw [randRead_full _ _ (by simp), rangeLoop_map]
  simp only [List.map_map, List.map_ofFn]
  congr 2
  funext i
  simp [Function.comp, Nat.mod_eq_of_lt (v i).isLt]

set_option maxRecDepth 100000 in
theorem alphanumAt_injective : ∀ i j : Fin 62,
    (alphanumAt i.val).getD 0 = (alphanumAt j.val).getD 0 → i = j := by
  decide

set_option maxRecDepth 100000 in
theorem preimageCount_values :
    ∀ k : Fin 62, preimageCount k.val = if k.val < 8 then 5 else 4 := by
  decide


/-- The secrets are the lists of sixteen alphanum characters: there are 62^16. -/
theorem secrets_card : secrets.card = 62 ^ 16 := by
  have h62 : alphanum.length % 256 = 62 := by decide
  let red : (Fin 16 → Fin 256) → (Fin 16 → Fin 62) :=
    fun v i => ⟨(v i).val % 62, Nat.mod_lt _ (by decide)⟩
  let h : (Fin 16 → Fin 62) → Option (List Nat) :=
    fun w => some (List.ofFn (fun i => (alphanumAt (w i).val).getD 0))
  have hfac : secretOf = h ∘ red := by
    funext v
    rw [secretOf_eq]
    simp only [Function.comp, h, red, h62]
  have hsurj : Function.Surjective red := by
    intro w
    refine ⟨fun i => ⟨(w i).val, by have := (w i).isLt; omega⟩, ?_⟩
    funext i
    apply Fin.ext
    simp only [red]
    exact Nat.mod_eq_of_lt (w i).isLt
  have hinj : Function.Injective h := by
    intro w1 w2 hw
    simp only [h, Option.some.injEq] at hw
    have := List.ofFn_injective hw
    funext i
    exact alphanumAt_injective _ _ (congrFun this i)
  unfold secrets
  rw [hfac, ← Finset.image_image, Finset.image_univ_of_surjective hsurj,
    Finset.card_image_of_injective _ hinj, Finset.card_univ, Fintype.card_fun,
    Fintype.card_fin, Fintype.card_fin]

/-- C9 as stated fails: over all 256^16 inputs of the entropy source
generateVerifyHash(16) returns fewer than 2^128 distinct secrets. -/
theorem secrets_fewer_than_128_bits : ¬ (2 ^ 128 ≤ secrets.card) := by
  rw [secrets_card]
  norm_num

/-- C9 amended: generateVerifyHash(16) reads sixteen bytes from the entropy source
and returns exactly 62^16 distinct secrets, which is between 2^95 and 2^96; the
map from a byte to a character is not uniform: each of the first eight characters
of alphanum is the image of five byte values, each of the other 54 of four. -/
theorem secrets_entropy :
    secrets.card = 62 ^ 16
      ∧ 2 ^ 95 < secrets.card ∧ secrets.card < 2 ^ 96
      ∧ ∀ k : Fin 62, preimageCount k.val = if k.val < 8 then 5 else 4 := by
  refine ⟨secrets_card, ?_, ?_, preimageCount_values⟩
  · rw [secrets_card]; norm_num
  · rw [secrets_card]; norm_num

/-! ## RetrieveAccount -/

/-- C2 at a concrete input: with the mailer configured and working,
RetrieveAccount("real@x.test") flashes the same success message whether or not
the account exists, but redirects to Account.Login when it exists and to
Application.Index when it does not. -/
theorem RetrieveAccount_redirect_differs :
    response (RetrieveAccount envMail (ctx db1) "real@x.test")
        = some (.Redirect .AccountLogin,
                [("success", "A password reset request has been sent to real@x.test.")], [])
      ∧ response (RetrieveAccount envMail (ctx db0) "real@x.test")
        = some (.Redirect .ApplicationIndex,
                [("success", "A password reset request has been sent to real@x.test.")], []) := by
  constructor <;> decide

/-! ## Errors of the transaction handle -/

theorem getProfile_none_of_fails (env : Env) (c : Controller) (email : String)
    (h : env.fails .selectUser = true ∨ env.fails .selectProfile = true
          ∨ env.fails .getUser = true) :
    getProfile env c email = none := by
  unfold getProfile
  split
  · rfl
  · rename_i user hu
    have h1 := (SelectOne_ok hu).1
    split
    · rfl
    · rename_i profile hp
      exfalso
      unfold selectProfileByUserId at hp
      split at hp
      · cases hp
      · rename_i p0 hp0
        have h2 := (SelectOne_ok hp0).1
        unfold ProfilePostGet at hp
        split at hp
        · cases hp
        · rename_i u hk
          have h3 := (SelectOne_ok hk).1
          rcases h with h | h | h
          · rw [h1] at h; cases h
          · rw [h2] at h; cases h
          · rw [h3] at h; cases h

theorem getVerifyHashRecord_none_of_fails (env : Env) (c : Controller) (kind secret : String)
    (h : env.fails .selectToken = true) : getVerifyHashRecord env c kind secret = none := by
  simp [getVerifyHashRecord, selectToken, SelectOne, h]

/-- C10 as stated fails: the select in getProfile returns an error, and
LoginAccount (here with the right password) ends with the ordinary
"Sign In failed." response instead of a fatal error. -/
theorem LoginAccount_select_error_not_fatal :
    (∃ e, selectUserByEmail (envFailing .selectUser) (ctx db1).Txn "real@x.test" = .error e)
      ∧ LoginAccount (envFailing .selectUser) (ctx db1) "real@x.test" "secret" false
        = .ok (.Redirect .AccountLogin)
            (FlashError { ctx db1 with Flash := mapSet (ctx db1).Flash "email" "real@x.test" }
              "Sign In failed.") := by
  refine ⟨⟨_, rfl⟩, ?_⟩
  have h : getProfile (envFailing .selectUser) (ctx db1) "real@x.test" = none :=
    getProfile_none_of_fails _ _ _ (Or.inl rfl)
  simp [LoginAccount, h]

/-- The insert of the token in sendEmail: when it returns an error the error is
dropped, the mail is sent all the same, and its link carries a secret that
getVerifyHashRecord does not find. -/
theorem sendEmail_insert_error_dropped :
    ∃ c1, sendEmail { envMail with fails := fun j => decide (j = Call.insertToken) } (ctx db0)
          (some userReal) "reset" "Reset your password at localhost" = .ok none c1
      ∧ c1.Txn.tokens = []
      ∧ c1.Mailed = [{ To := ["real@x.test"], Subject := "Reset your password at localhost",
                       Template := "email/reset",
                       Link := "http://localhost:9000/account/reset/AzAHHcONBCDEFGHI" }]
      ∧ getVerifyHashRecord env0 c1 "reset" "AzAHHcONBCDEFGHI" = none :=
  ⟨_, rfl, by decide, by decide, by decide⟩

/-- C10 amended: an error from the insert of the User or of the Profile in
SaveUser, from the update in ConfirmEmail, or from the delete of the token in
ConfirmEmail and PasswordReset ends the request in a panic.  An error from a
select is not fatal: getProfile and getVerifyHashRecord return nil, so
LoginAccount answers "Sign In failed.", RetrieveAccount its success message, and
ConfirmEmail and PasswordReset "Token invalid or used". -/
theorem persistence_errors (env : Env) (c : Controller) :
    (∀ user name verifyPassword, SaveUserValid env user name verifyPassword = true →
        getProfile env c user.Email = none → env.fails .insertUser = true →
        ∃ e, SaveUser env c user name verifyPassword = .panic e c)
      ∧ (∀ user name verifyPassword, SaveUserValid env user name verifyPassword = true →
          getProfile env c user.Email = none → env.fails .insertUser = false →
          env.fails .insertProfile = true →
          ∃ e c1, SaveUser env c user name verifyPassword = .panic e c1)
      ∧ (∀ s tok p, getVerifyHashRecord env c "confirm" s = some tok →
          getProfile env c tok.Email = some p → env.fails .updateUser = true →
          ∃ e, ConfirmEmail env c s = .panic e c)
      ∧ (∀ s tok p, getVerifyHashRecord env c "confirm" s = some tok →
          getProfile env c tok.Email = some p → env.fails .updateUser = false →
          env.fails .deleteToken = true →
          ∃ e c1, ConfirmEmail env c s = .panic e c1)
      ∧ (∀ s tok p, getVerifyHashRecord env c "reset" s = some tok →
          getProfile env c tok.Email = some p → env.fails .deleteToken = true →
          ∃ e, PasswordReset env c s = .panic e c)
      ∧ ((env.fails .selectUser = true ∨ env.fails .selectProfile = true
            ∨ env.fails .getUser = true) →
          ∀ email password remember,
            getProfile env c email = none
            ∧ LoginAccount env c email password remember
              = .ok (.Redirect .AccountLogin)
                  (FlashError { c with Flash := mapSet c.Flash "email" email } "Sign In failed.")
            ∧ (env.ValidateUserEmail email = true →
                RetrieveAccount env c email
                  = .ok (.Redirect .ApplicationIndex)
                      (FlashSuccess c
                        ("A password reset request has been sent to " ++ email ++ "."))))
      ∧ (env.fails .selectToken = true →
          ∀ s, ConfirmEmail env c s
              = .ok (.Redirect .ApplicationIndex) (FlashError c "Token invalid or used")
            ∧ PasswordReset env c s
              = .ok (.Redirect .ApplicationIndex) (FlashError c "Token invalid or used")) := by
  refine ⟨?_, ?_, ?_, ?_, ?_, ?_, ?_⟩
  · intro user name verifyPassword hv hn hf
    exact ⟨_, by simp [SaveUser, hv, hn, insertUser, hf]; rfl⟩
  · intro user name verifyPassword hv hn hf hf2
    exact ⟨_, _, by
      simp [SaveUser, hv, hn, insertUser, hf, insertProfile, hf2]
      exact ⟨rfl, rfl⟩⟩
  · intro s tok p ht hp hf
    obtain ⟨u, hu, _⟩ := getProfile_some hp
    exact ⟨_, by simp [ConfirmEmail, ht, hp, hu, updateUser, hf]; rfl⟩
  · intro s tok p ht hp hf hf2
    obtain ⟨u, hu, _⟩ := getProfile_some hp
    exact ⟨_, _, by
      simp [ConfirmEmail, ht, hp, hu, updateUser, hf, deleteVerifyHashRecord, deleteToken, hf2]
      exact ⟨rfl, rfl⟩⟩
  · intro s tok p ht hp hf
    exact ⟨_, by simp [PasswordReset, ht, hp, deleteVerifyHashRecord, deleteToken, hf]; rfl⟩
  · intro hf email password remember
    have h := getProfile_none_of_fails env c email hf
    refine ⟨h, by simp [LoginAccount, h], ?_⟩
    intro hv
    simp [RetrieveAccount, hv, h]
  · intro hf s
    have h1 := getVerifyHashRecord_none_of_fails env c "confirm" s hf
    have h2 := getVerifyHashRecord_none_of_fails env c "reset" s hf
    exact ⟨by simp [ConfirmEmail, h1], by simp [PasswordReset, h2]⟩

/-- Witness for C10: each call failing in turn on the example stores. -/
theorem persistence_errors_witness :
    (∃ e, SaveUser (envFailing .insertUser) (ctx db0)
          { userReal with Password := "pw" } "Real" "pw" = .panic e (ctx db0))
      ∧ (∃ e c1, SaveUser (envFailing .insertProfile) (ctx db0)
            { userReal with Password := "pw" } "Real" "pw" = .panic e c1)
      ∧ (∃ e, ConfirmEmail (envFailing .updateUser) (ctx db1) "CONFIRMSECRET"
          = .panic e (ctx db1))
      ∧ (∃ e c1, ConfirmEmail (envFailing .deleteToken) (ctx db1) "CONFIRMSECRET"
          = .panic e c1)
      ∧ (∃ e, PasswordReset (envFailing .deleteToken) (ctx db1) "RESETSECRET"
          = .panic e (ctx db1))
      ∧ RetrieveAccount (envFailing .selectUser) (ctx db1) "real@x.test"
          = .ok (.Redirect .ApplicationIndex)
              (FlashSuccess (ctx db1)
                ("A password reset request has been sent to " ++ "real@x.test" ++ "."))
      ∧ ConfirmEmail (envFailing .selectToken) (ctx db1) "CONFIRMSECRET"
          = .ok (.Redirect .ApplicationIndex) (FlashError (ctx db1) "Token invalid or used") := by
  refine ⟨?_, ?_, ?_, ?_, ?_, ?_, ?_⟩
  · exact (persistence_errors (envFailing .insertUser) (ctx db0)).1
      { userReal with Password := "pw" } "Real" "pw" (by decide) (by decide) rfl
  · exact (persistence_errors (envFailing .insertProfile) (ctx db0)).2.1
      { userReal with Password := "pw" } "Real" "pw" (by decide) (by decide) rfl rfl
  · exact (persistence_errors (envFailing .updateUser) (ctx db1)).2.2.1
      "CONFIRMSECRET" (Token.mk 1 "real@x.test" "confirm" "CONFIRMSECRET")
      { profileReal with User := some userReal } (by decide) (by decide) rfl
  · exact (persistence_errors (envFailing .deleteToken) (ctx db1)).2.2.2.1
      "CONFIRMSECRET" (Token.mk 1 "real@x.test" "confirm" "CONFIRMSECRET")
      { profileReal with User := some userReal } (by decide) (by decide) rfl rfl
  · exact (persistence_errors (envFailing .deleteToken) (ctx db1)).2.2.2.2.1
      "RESETSECRET" (Token.mk 2 "real@x.test" "reset" "RESETSECRET")
      { profileReal with User := some userReal } (by decide) (by decide) rfl
  · exact ((persistence_errors (envFailing .selectUser) (ctx db1)).2.2.2.2.2.1
      (Or.inl rfl) "real@x.test" "secret" false).2.2 rfl
  · exact ((persistence_errors (envFailing .selectToken) (ctx db1)).2.2.2.2.2.2 rfl
      "CONFIRMSECRET").1

end Controllers
